import Mathlib

/-!
Shallow embedding of the evaluation-orchestration server
(`src/eval-server/nodejs/examples/with-http-wrapper.js`, class `EvaluationServer`)
and of the agent runtime peer (`src/unnamed/part_006`, class `EvaluationAgent`).

JavaScript `Map` objects are modelled as association lists with JS `Map`
semantics (`set` replaces in place, `delete` removes the key, `get` looks up).
Collaborator calls whose implementations live outside `src/`
(`ClientManager.validateClient` / `registerClient` / `updateEvaluationStatus`
from `client-manager.js`, `RpcClient.handleResponse` / `cleanup` from
`rpc-client.js`, the LLM judge, remote tool execution) enter the model either
as explicit outcome parameters or as definitions marked `Modelled from the
spec:`; everything else is translated directly from the source.
-/

namespace EvalModel

/-- JS `Map.get`: first binding of the key, if any. -/
def mapGet {α : Type} : List (String × α) → String → Option α
  | [], _ => none
  | (k, v) :: rest, q => if k = q then some v else mapGet rest q

/-- JS `Map.set`: replace the binding in place if the key is present,
otherwise append a new binding. -/
def mapSet {α : Type} : List (String × α) → String → α → List (String × α)
  | [], k, v => [(k, v)]
  | (k0, v0) :: rest, k, v =>
    if k0 = k then (k, v) :: rest else (k0, v0) :: mapSet rest k v

/-- JS `Map.delete`: remove the binding of the key. -/
def mapDelete {α : Type} (m : List (String × α)) (k : String) : List (String × α) :=
  m.filter (fun e => e.1 ≠ k)

/-- JS `x || d` on an optional number: `undefined`, `null` and `0` are falsy. -/
def jsOrNat (a : Option Nat) (d : Nat) : Nat :=
  match a with
  | some n => if n = 0 then d else n
  | none => d

/-- JS `a || b` on optional strings: `undefined`, `null` and `""` are falsy. -/
def jsOrString (a : Option String) (b : Option String) : Option String :=
  match a with
  | some s => if s = "" then b else some s
  | none => b

/-- Client capabilities sent in the `register` frame
(spec §3: tools, maxConcurrency, version; tabId per §4.3). -/
structure Capabilities where
  tools : List String
  maxConcurrency : Nat
  version : String
  tabId : Option String
deriving Repr, DecidableEq

/-- Server-side connection record (`handleConnection` in `with-http-wrapper.js`):
transient id, per-connection `RpcClient` (modelled by its outstanding
correlation ids), flags and client identity filled in at registration. -/
structure Connection where
  id : String
  registered : Bool
  ready : Bool
  clientId : Option String
  capabilities : Option Capabilities
  pendingRpcIds : List String
  remoteAddress : String
  connectedAt : String
deriving Repr, DecidableEq

/-- The server's `connectedAgents` map. -/
structure ServerState where
  connectedAgents : List (String × Connection)
deriving Repr, DecidableEq

/-- Frames the server sends (`sendMessage` call sites). -/
inductive OutFrame
  | welcome (serverId : String) (version : String) (timestamp : String)
  | registrationAck (clientId : String) (status : String) (reason : Option String)
      (message : Option String) (evaluationsCount : Option Nat)
  | pong (timestamp : String)
deriving Repr, DecidableEq

/-- Payload of a `register` frame. -/
structure RegisterData where
  clientId : String
  secretKey : Option String
  capabilities : Option Capabilities
deriving Repr, DecidableEq

/-- Payload of a client `status` frame. -/
structure StatusData where
  evaluationId : String
  status : String
  progress : Option ℚ
  message : Option String
deriving Repr, DecidableEq

/-- Control-frame union, discriminated by the JSON `type` tag
(the `switch (data.type)` in `handleMessage`). -/
inductive InboundData
  | register (d : RegisterData)
  | ping
  | ready
  | status (d : StatusData)
  | unknown (ty : String)
deriving Repr, DecidableEq

/-- One inbound WebSocket frame: its JSON-RPC `id` field when it has one, and
the result of parsing it against the control-frame union (`none` = the frame
is not valid JSON, so `JSON.parse` throws). -/
structure Frame where
  rpcId : Option String
  parsed : Option InboundData
deriving Repr, DecidableEq

/-- Result of `ClientManager.validateClient` (collaborator, spec §6:
`ClientStore.validate(clientId,secretKey) -> valid/reason`). -/
structure ClientValidation where
  valid : Bool
  reason : Option String
deriving Repr, DecidableEq

/-- Result of `ClientManager.registerClient` (collaborator): the client's
display name and how many evaluation definitions it owns. -/
structure RegInfo where
  clientName : Option String
  evaluationsCount : Nat
deriving Repr, DecidableEq

/-- Modelled from the spec: `rpc-client.js` is not under `src/`. Spec §4.2:
`handleResponse(frame)` matches the frame id against the connection's pending
entries; on a match it resolves the call, removes the pending entry and
returns true (frame consumed); on no match it returns false. `some conn2`
models consumption with the updated pending set, `none` models fall-through. -/
def rpcHandleResponse (conn : Connection) (f : Frame) : Option Connection :=
  match f.rpcId with
  | some i =>
    if i ∈ conn.pendingRpcIds then
      some { conn with pendingRpcIds := conn.pendingRpcIds.erase i }
    else none
  | none => none

/-- Modelled from the spec: `rpc-client.js` is not under `src/`. Spec §4.2:
`cleanup()` immediately fails all pending calls owned by the connection.
Returns the connection with no pending entries and the list of failed
correlation ids. -/
def rpcCleanup (conn : Connection) : Connection × List String :=
  ({ conn with pendingRpcIds := [] }, conn.pendingRpcIds)

/-- The judge collaborator's result (`LLMEvaluator.evaluate`, external; the
source reads its `score` field). Scores are modelled as exact rationals. -/
structure JudgeResult where
  score : ℚ
deriving Repr, DecidableEq

/-- A stored validation result (`validateResponse` return value). -/
structure ValidationResult where
  ty : String
  result : JudgeResult
  passed : Bool
deriving Repr, DecidableEq

/-- The `llm_judge` block of an evaluation definition. -/
structure LlmJudgeConfig where
  criteria : List String
  model : Option String
deriving Repr, DecidableEq

/-- An evaluation definition's `validation` block (spec §3:
type, criteria, threshold with default 0.7). -/
structure ValidationConfig where
  ty : String
  llmJudge : Option LlmJudgeConfig
  threshold : Option ℚ
deriving Repr, DecidableEq

/-- An evaluation definition (YAML-config backed; the fields the dispatcher
reads in `executeEvaluation`). -/
structure Evaluation where
  id : String
  name : String
  description : Option String
  tool : String
  input : String
  url : Option String
  targetUrl : Option String
  timeout : Option Nat
  validation : Option ValidationConfig
  metadataTags : Option (List String)
  maxRetries : Option Nat
deriving Repr, DecidableEq

/-- Result payload handed to `updateEvaluationStatus` on completion/failure. -/
structure RpcResponse where
  output : String
  executionTime : Nat
deriving Repr, DecidableEq

/-- The details stored with a terminal status update
(`response/validation/duration` on success, `error/duration` on failure). -/
inductive UpdateDetails
  | success (response : RpcResponse) (validation : Option ValidationResult) (duration : Nat)
  | failure (error : String) (duration : Nat)
deriving Repr, DecidableEq

/-- Key of the client manager's evaluation store: the connection's clientId
(`null` before registration is representable, as in the source) and the
evaluation id. -/
structure EvalKey where
  clientId : Option String
  evaluationId : String
deriving Repr, DecidableEq

/-- Stored per-evaluation record: its status string and last result details. -/
structure EvalRecord where
  status : String
  details : Option UpdateDetails
deriving Repr, DecidableEq

/-- The client manager's evaluation store. -/
abbrev EvalStore := List (EvalKey × EvalRecord)

/-- Lookup in the evaluation store. -/
def lookupEval : EvalStore → EvalKey → Option EvalRecord
  | [], _ => none
  | (k, r) :: rest, q => if k = q then some r else lookupEval rest q

/-- Modelled from the spec: `client-manager.js` is not under `src/`; only its
callers are. Per spec §3 (status transitions, re-runs reset status to
`pending`) and every call site in `src/` (`executeEvaluation` sets
`running`/`completed`/`failed`, the CLI resets to `pending`),
`updateEvaluationStatus(clientId, evaluationId, status, details?)` sets the
stored status of the evaluation, storing the result details when provided and
keeping the previous ones otherwise. -/
def updateEvaluationStatus : EvalStore → Option String → String → String →
    Option UpdateDetails → EvalStore
  | [], cid, eid, s, d => [(⟨cid, eid⟩, ⟨s, d⟩)]
  | (k, r) :: rest, cid, eid, s, d =>
    if k = ⟨cid, eid⟩ then
      (k, ⟨s, match d with | some dd => some dd | none => r.details⟩) :: rest
    else (k, r) :: updateEvaluationStatus rest cid eid s d

/-- `handleConnection`: allocate the transient connection record, store it
under the transient connection id, send `welcome`. `now` stands for
`new Date().toISOString()`. -/
def handleConnection (st : ServerState) (connectionId : String)
    (remoteAddress : String) (now : String) :
    ServerState × Connection × List OutFrame :=
  let conn : Connection :=
    { id := connectionId
      registered := false
      ready := false
      clientId := none
      capabilities := none
      pendingRpcIds := []
      remoteAddress := remoteAddress
      connectedAt := now }
  ({ connectedAgents := mapSet st.connectedAgents connectionId conn }, conn,
   [OutFrame.welcome "server-001" "1.0.0" now])

/-- The `registration_ack` message text:
`result.clientName ? Welcome ... : 'Client registered successfully'`. -/
def welcomeText (info : RegInfo) : String :=
  match info.clientName with
  | some n => "Welcome " ++ n
  | none => "Client registered successfully"

/-- `handleRegistration`: validate the credentials (outcome `validation`,
from the `ClientManager` collaborator); on failure reply `rejected` with the
reason. On success run `registerClient` (outcome `regResult`; its `throw`
is the `Except.error` case, answered `rejected` by the `catch` block), mark
the connection registered, delete the transient map entry and store the
connection under the plain `clientId` key, then reply `accepted` with the
evaluations count. -/
def handleRegistration (st : ServerState) (conn : Connection) (rd : RegisterData)
    (validation : ClientValidation) (regResult : Except String RegInfo) :
    ServerState × Connection × List OutFrame :=
  if ¬ validation.valid then
    (st, conn,
     [OutFrame.registrationAck rd.clientId "rejected" validation.reason none none])
  else
    match regResult with
    | Except.error m =>
      (st, conn,
       [OutFrame.registrationAck rd.clientId "rejected" (some m) none none])
    | Except.ok info =>
      let conn2 :=
        { conn with
          registered := true
          clientId := some rd.clientId
          capabilities := rd.capabilities }
      let m1 := mapDelete st.connectedAgents conn.id
      let m2 := mapSet m1 rd.clientId conn2
      ({ connectedAgents := m2 }, conn2,
       [OutFrame.registrationAck rd.clientId "accepted" none
         (some (welcomeText info)) (some info.evaluationsCount)])

/-- `handleStatusUpdate`: ignore status frames from unregistered connections;
otherwise forward the client-sent status to `updateEvaluationStatus`
(progress and message are only logged, never stored). -/
def handleStatusUpdate (store : EvalStore) (conn : Connection) (sd : StatusData) :
    EvalStore :=
  if ¬ conn.registered then store
  else updateEvaluationStatus store conn.clientId sd.evaluationId sd.status none

/-- The directory key removed on disconnect:
`connection.registered && connection.clientId` (JS truthiness: a present,
non-empty clientId) selects the client key, else the transient id. -/
def dirKey (conn : Connection) : String :=
  match conn.clientId with
  | some cid => if conn.registered ∧ cid ≠ "" then cid else conn.id
  | none => conn.id

/-- `handleDisconnection`: fail all pending RPC calls of the connection
(`rpcClient.cleanup()`), then delete the directory entry by client key if
registered, else by transient connection id. Returns the failed call ids. -/
def handleDisconnection (st : ServerState) (conn : Connection) :
    ServerState × List String :=
  let cleaned := rpcCleanup conn
  ({ connectedAgents := mapDelete st.connectedAgents (dirKey conn) }, cleaned.2)

/-- Result of one `handleMessage` step: the server map, the connection, the
evaluation store, the frames sent back, and whether any code path closed the
socket (none does: errors are logged and dropped). -/
structure HandleResult where
  server : ServerState
  conn : Connection
  store : EvalStore
  outbox : List OutFrame
  closed : Bool
deriving Repr, DecidableEq

/-- `handleMessage`: first offer the frame to the per-connection RPC
correlator and stop if it is consumed; otherwise parse it (`JSON.parse`; a
parse failure is caught, logged and dropped) and dispatch on the `type` tag:
`register`, `ping` (reply `pong`), `ready` (requires `registered`), `status`,
and unknown types which are logged and dropped. `now` stands for the clock
read in the `pong` reply; `validation`/`regResult` are the collaborator
outcomes consumed by the `register` branch. -/
def handleMessage (st : ServerState) (conn : Connection) (store : EvalStore)
    (f : Frame) (validation : ClientValidation) (regResult : Except String RegInfo)
    (now : String) : HandleResult :=
  match rpcHandleResponse conn f with
  | some conn2 =>
    { server := st, conn := conn2, store := store, outbox := [], closed := false }
  | none =>
    match f.parsed with
    | none =>
      { server := st, conn := conn, store := store, outbox := [], closed := false }
    | some d =>
      match d with
      | InboundData.register rd =>
        let r := handleRegistration st conn rd validation regResult
        { server := r.1, conn := r.2.1, store := store, outbox := r.2.2, closed := false }
      | InboundData.ping =>
        { server := st, conn := conn, store := store, outbox := [OutFrame.pong now], closed := false }
      | InboundData.ready =>
        if ¬ conn.registered then
          { server := st, conn := conn, store := store, outbox := [], closed := false }
        else
          { server := st, conn := { conn with ready := true }, store := store, outbox := [], closed := false }
      | InboundData.status sd =>
        { server := st, conn := conn, store := handleStatusUpdate store conn sd, outbox := [], closed := false }
      | InboundData.unknown _ =>
        { server := st, conn := conn, store := store, outbox := [], closed := false }

/-- `validateResponse(response, evaluation)`: for `llm-judge` or `hybrid`
validation, consult the judge collaborator (its successful result enters the
model as `j`; task/criteria construction feeds only that external call) and
classify with the hardcoded comparison `judgeResult.score >= 0.7`; other
validation types return `null`. -/
def validateResponse (e : Evaluation) (j : JudgeResult) : Option ValidationResult :=
  match e.validation with
  | none => none
  | some v =>
    if v.ty = "llm-judge" ∨ v.ty = "hybrid" then
      some { ty := "llm-judge", result := j, passed := decide ((7 : ℚ)/10 ≤ j.score) }
    else none

/-- The params object of the `evaluate` JSON-RPC request built by
`executeEvaluation`. -/
structure RpcParams where
  evaluationId : String
  name : String
  url : Option String
  tool : String
  input : String
  timeout : Nat
  metadataTags : List String
  metadataRetries : Nat
deriving Repr, DecidableEq

/-- An RPC call issued through `rpcClient.callMethod`. -/
structure IssuedCall where
  method : String
  params : RpcParams
  timeoutMs : Nat
deriving Repr, DecidableEq

/-- Outcome of the remote `evaluate` call (the agent's reply, a timeout, or
an RPC error — the rejection reasons all land in the `err` case). -/
inductive RpcOutcome
  | ok (response : RpcResponse)
  | err (message : String)
deriving Repr, DecidableEq

/-- Result of `executeEvaluation`: the evaluation store after the run, the
RPC calls issued, and the normal/thrown outcome (failures re-throw). -/
structure ExecResult where
  store : EvalStore
  issued : List IssuedCall
  outcome : Except String Unit
deriving Repr

/-- `executeEvaluation(client, evaluation)`: set the stored status to
`running`, build the `evaluate` params, issue the RPC call with timeout
`evaluation.timeout || 45000`; on success run validation when configured and
store `completed` with the result details; on failure store `failed` with the
error and re-throw. `elapsed` stands for `Date.now() - startTime`. -/
def executeEvaluation (store : EvalStore) (client : Connection)
    (evaluation : Evaluation) (rpc : RpcOutcome) (judge : JudgeResult)
    (elapsed : Nat) : ExecResult :=
  let store1 := updateEvaluationStatus store client.clientId evaluation.id "running" none
  let params : RpcParams :=
    { evaluationId := evaluation.id
      name := evaluation.name
      url := jsOrString evaluation.targetUrl evaluation.url
      tool := evaluation.tool
      input := evaluation.input
      timeout := jsOrNat evaluation.timeout 30000
      metadataTags := evaluation.metadataTags.getD []
      metadataRetries := evaluation.maxRetries.getD 0 }
  let call : IssuedCall :=
    { method := "evaluate", params := params, timeoutMs := jsOrNat evaluation.timeout 45000 }
  match rpc with
  | RpcOutcome.ok response =>
    let validationResult :=
      if evaluation.validation.isSome then validateResponse evaluation judge else none
    let store2 := updateEvaluationStatus store1 client.clientId evaluation.id
      "completed" (some (UpdateDetails.success response validationResult elapsed))
    { store := store2, issued := [call], outcome := Except.ok () }
  | RpcOutcome.err m =>
    let store2 := updateEvaluationStatus store1 client.clientId evaluation.id
      "failed" (some (UpdateDetails.failure m elapsed))
    { store := store2, issued := [call], outcome := Except.error m }

/-- One step of `processClientEvaluations(clientId)` (without the recursive
re-arm after the 1s delay): return silently when the client is missing or not
ready, or when it has no pending evaluation; otherwise execute the
evaluation. -/
def processClientEvaluationsStep (store : EvalStore) (clientOpt : Option Connection)
    (nextEval : Option Evaluation) (rpc : RpcOutcome) (judge : JudgeResult)
    (elapsed : Nat) : EvalStore × List IssuedCall :=
  match clientOpt with
  | none => (store, [])
  | some client =>
    if ¬ client.ready then (store, [])
    else
      match nextEval with
      | none => (store, [])
      | some e =>
        let r := executeEvaluation store client e rpc judge elapsed
        (r.store, r.issued)

/-- Local state of the agent runtime (`EvaluationAgent` in
`src/unnamed/part_006`): socket object present, registration flags, active
evaluation ids (values of the map are only counted/listed), heartbeat
interval handle present. -/
structure AgentState where
  client : Bool
  registered : Bool
  ready : Bool
  heartbeat : Bool
  activeEvaluations : List String
deriving Repr, DecidableEq

/-- Frames the agent sends. -/
inductive AgentFrame
  | register (clientId : String) (secretKey : Option String)
  | ready
  | ping (timestamp : String)
  | status (evaluationId : String) (status : String) (progress : Option ℚ)
      (message : Option String)
  | rpcSuccess (id : String) (output : String) (executionTime : Nat)
  | rpcError (id : String) (message : String) (dataError : String)
deriving Repr, DecidableEq

/-- The `registration_ack` frame as the agent sees it. -/
structure RegistrationAckMessage where
  clientId : Option String
  status : String
  reason : Option String
  message : Option String
  evaluationsCount : Option Nat
deriving Repr, DecidableEq

/-- The params of an inbound `evaluate` JSON-RPC request on the agent side. -/
structure EvaluationParams where
  evaluationId : String
  name : String
  url : Option String
  tool : String
  input : String
  timeout : Option Nat
deriving Repr, DecidableEq

/-- An inbound `evaluate` JSON-RPC request (with its correlation id). -/
structure EvaluationRequest where
  id : String
  params : EvaluationParams
deriving Repr, DecidableEq

/-- `disconnect()`: stop the heartbeat, disconnect and drop the socket,
clear `registered`/`ready`, empty the active-evaluation map. -/
def disconnect (_a : AgentState) : AgentState :=
  { client := false, registered := false, ready := false, heartbeat := false,
    activeEvaluations := [] }

/-- `sendReady()`: requires the socket and `registered`; sends `ready` and
sets the local `ready` flag. -/
def sendReady (a : AgentState) : AgentState × List AgentFrame :=
  if ¬ a.client ∨ ¬ a.registered then (a, [])
  else ({ a with ready := true }, [AgentFrame.ready])

/-- `startHeartbeat()`: idempotent; arms the 30s ping interval. -/
def startHeartbeat (a : AgentState) : AgentState :=
  if a.heartbeat then a else { a with heartbeat := true }

/-- `handleRegistrationAck`: on `accepted` set `registered`, send `ready` and
start the heartbeat; on any other status disconnect (the agent never retries
registration). -/
def handleRegistrationAck (a : AgentState) (m : RegistrationAckMessage) :
    AgentState × List AgentFrame :=
  if m.status = "accepted" then
    let a1 := { a with registered := true }
    let r := sendReady a1
    (startHeartbeat r.1, r.2)
  else
    (disconnect a, [])

/-- `sendStatus`: requires the socket and `ready`; otherwise drops the frame. -/
def sendStatusFrames (a : AgentState) (evaluationId : String) (st : String)
    (progress : Option ℚ) (message : Option String) : List AgentFrame :=
  if ¬ a.client ∨ ¬ a.ready then []
  else [AgentFrame.status evaluationId st progress message]

/-- JS `Map.set` on the keys of the active-evaluation map. -/
def setActive (l : List String) (e : String) : List String :=
  if e ∈ l then l else l ++ [e]

/-- JS `Map.delete` on the keys of the active-evaluation map. -/
def deleteActive (l : List String) (e : String) : List String :=
  l.filter (fun x => x ≠ e)

/-- How the tool execution behind `executeToolWithTimeout` resolves: the
tool's own settlement when it beats the timer, or the timer firing first. -/
inductive ToolRun
  | completes (result : Except String String)
  | timesOut
deriving Repr

/-- `executeToolWithTimeout(tool, input, timeout)`: race `tool.execute`
against the timer; the timer rejects with the timeout message, otherwise the
tool's resolution or rejection wins. -/
def executeToolWithTimeout (run : ToolRun) (timeoutMs : Nat) : Except String String :=
  match run with
  | ToolRun.timesOut =>
    Except.error ("Tool execution timeout after " ++ toString timeoutMs ++ "ms")
  | ToolRun.completes r => r

/-- `handleEvaluationRequest(request)`: track the active evaluation, emit
progress `status` frames, resolve the tool from the registry (`toolFound`;
a miss throws `Tool not found`), execute it against `params.timeout || 30000`
(`run` is how the race settles), then send exactly one JSON-RPC response
carrying the request's `id` — success with the tool output, or the
`Tool execution failed` error whose data carries the thrown message — and a
final `status`; the `finally` block drops the active-evaluation entry.
`executionTime` stands for `Date.now() - startTime`. -/
def handleEvaluationRequest (a : AgentState) (req : EvaluationRequest)
    (toolFound : Bool) (run : ToolRun) (executionTime : Nat) :
    AgentState × List AgentFrame :=
  let pid := req.params.evaluationId
  let a1 := { a with activeEvaluations := setActive a.activeEvaluations pid }
  let out1 := sendStatusFrames a1 pid "running" (some ((1 : ℚ)/10))
    (some "Starting evaluation...")
  if ¬ toolFound then
    let msg := "Tool not found: " ++ req.params.tool
    let resp := if a1.client then [AgentFrame.rpcError req.id "Tool execution failed" msg] else []
    let out2 := sendStatusFrames a1 pid "failed" (some 1) (some msg)
    ({ a1 with activeEvaluations := deleteActive a1.activeEvaluations pid },
     out1 ++ resp ++ out2)
  else
    let outNav :=
      match req.params.url with
      | some _ => sendStatusFrames a1 pid "running" (some ((1 : ℚ)/5))
          (some "Navigating to URL...")
      | none => []
    let outExec := sendStatusFrames a1 pid "running" (some ((1 : ℚ)/2))
      (some ("Executing " ++ req.params.tool ++ "..."))
    match executeToolWithTimeout run (jsOrNat req.params.timeout 30000) with
    | Except.ok result =>
      let resp := if a1.client then [AgentFrame.rpcSuccess req.id result executionTime] else []
      let outDone := sendStatusFrames a1 pid "completed" (some 1)
        (some "Evaluation completed successfully")
      ({ a1 with activeEvaluations := deleteActive a1.activeEvaluations pid },
       out1 ++ outNav ++ outExec ++ resp ++ outDone)
    | Except.error m =>
      let resp := if a1.client then [AgentFrame.rpcError req.id "Tool execution failed" m] else []
      let outFail := sendStatusFrames a1 pid "failed" (some 1) (some m)
      ({ a1 with activeEvaluations := deleteActive a1.activeEvaluations pid },
       out1 ++ outNav ++ outExec ++ resp ++ outFail)

/-- Recognizer for JSON-RPC response frames among the agent's output. -/
def isRpcResponse : AgentFrame → Bool
  | AgentFrame.rpcSuccess _ _ _ => true
  | AgentFrame.rpcError _ _ _ => true
  | _ => false

/-- The correlation id carried by a JSON-RPC response frame. -/
def responseId : AgentFrame → Option String
  | AgentFrame.rpcSuccess i _ _ => some i
  | AgentFrame.rpcError i _ _ => some i
  | _ => none

lemma mapGet_mapSet_self {α : Type} (m : List (String × α)) (k : String) (v : α) :
    mapGet (mapSet m k v) k = some v := by
  induction m with
  | nil => simp [mapSet, mapGet]
  | cons e rest ih =>
    by_cases h : e.1 = k
    · simp [mapSet, mapGet, h]
    · simpa [mapSet, mapGet, h] using ih

lemma mapGet_mapSet_ne {α : Type} (m : List (String × α)) (k q : String) (v : α)
    (h : k ≠ q) : mapGet (mapSet m k v) q = mapGet m q := by
  induction m with
  | nil => simp [mapSet, mapGet, h]
  | cons e rest ih =>
    by_cases he : e.1 = k
    · simp [mapSet, mapGet, he, h]
    · by_cases hq : e.1 = q
      · simp [mapSet, mapGet, he, hq, Ne.symm h]
      · simp [mapSet, mapGet, he, hq, ih]

lemma mapGet_mapDelete_self {α : Type} (m : List (String × α)) (k : String) :
    mapGet (mapDelete m k) k = none := by
  induction m with
  | nil => rfl
  | cons e rest ih =>
    by_cases h : e.1 = k
    · simpa [mapDelete, List.filter_cons, h] using ih
    · simpa [mapDelete, mapGet, List.filter_cons, h] using ih

lemma lookupEval_updateEvaluationStatus_self (s : EvalStore) (cid : Option String)
    (eid : String) (stat : String) (d : Option UpdateDetails) :
    (lookupEval (updateEvaluationStatus s cid eid stat d) ⟨cid, eid⟩).map
      EvalRecord.status = some stat := by
  induction s with
  | nil => simp [updateEvaluationStatus, lookupEval]
  | cons e rest ih =>
    obtain ⟨k, r⟩ := e
    by_cases h : k = (⟨cid, eid⟩ : EvalKey)
    · simp [updateEvaluationStatus, lookupEval, h]
    · simpa [updateEvaluationStatus, lookupEval, h] using ih

lemma rpcHandleResponse_flags (conn : Connection) (f : Frame) (c2 : Connection)
    (h : rpcHandleResponse conn f = some c2) :
    c2.ready = conn.ready ∧ c2.registered = conn.registered := by
  unfold rpcHandleResponse at h
  split at h
  · split at h
    · injection h with h2
      subst h2
      exact ⟨rfl, rfl⟩
    · exact absurd h (by simp)
  · exact absurd h (by simp)

lemma handleRegistration_conn_flags (st : ServerState) (conn : Connection)
    (rd : RegisterData) (v : ClientValidation) (rr : Except String RegInfo) :
    (handleRegistration st conn rd v rr).2.1.ready = conn.ready ∧
    ((handleRegistration st conn rd v rr).2.1.registered = conn.registered ∨
     (handleRegistration st conn rd v rr).2.1.registered = true) := by
  unfold handleRegistration
  by_cases hv : v.valid
  · cases rr with
    | error m => simp [hv]
    | ok info => simp [hv]
  · simp [hv]

lemma filter_isRpcResponse_sendStatusFrames (a : AgentState) (eid s : String)
    (p : Option ℚ) (m : Option String) :
    (sendStatusFrames a eid s p m).filter isRpcResponse = [] := by
  unfold sendStatusFrames
  split
  · rfl
  · simp [isRpcResponse]

/-- A freshly connected, unregistered connection (as built by
`handleConnection`), used as a concrete scenario input. -/
def freshConn (cid : String) : Connection :=
  { id := cid
    registered := false
    ready := false
    clientId := none
    capabilities := none
    pendingRpcIds := []
    remoteAddress := "127.0.0.1"
    connectedAt := "t0" }

/-- C5: on every connection, `ready` can only be true when `registered` is
true: a `ready` frame from an unregistered connection is ignored, `register`
never clears `registered`, and no other branch touches the flags, so
`ready ⇒ registered` is preserved by every `handleMessage` step. -/
theorem ready_implies_registered_invariant (st : ServerState) (conn : Connection)
    (store : EvalStore) (f : Frame) (v : ClientValidation)
    (rr : Except String RegInfo) (now : String)
    (hinv : conn.ready = true → conn.registered = true) :
    (handleMessage st conn store f v rr now).conn.ready = true →
    (handleMessage st conn store f v rr now).conn.registered = true := by
  unfold handleMessage
  cases hr : rpcHandleResponse conn f with
  | some c2 =>
    have h2 := rpcHandleResponse_flags conn f c2 hr
    intro hready
    simp only at hready ⊢
    rw [h2.2]
    exact hinv (h2.1 ▸ hready)
  | none =>
    cases hp : f.parsed with
    | none => exact hinv
    | some d =>
      cases d with
      | register rd =>
        have h2 := handleRegistration_conn_flags st conn rd v rr
        intro hready
        simp only at hready ⊢
        rcases h2.2 with hcase | hcase
        · rw [hcase]
          exact hinv (h2.1 ▸ hready)
        · exact hcase
      | ping => exact hinv
      | ready =>
        by_cases hreg : conn.registered
        · simp [hreg]
        · simp [hreg]
          cases hready : conn.ready with
          | false => rfl
          | true => exact absurd (hinv hready) hreg
      | status sd => exact hinv
      | unknown t => exact hinv

/-- C5 witness: a registered connection that receives a `ready` frame becomes
ready, and the invariant then makes it registered. -/
theorem ready_implies_registered_invariant_witness :
    (handleMessage ⟨[]⟩ { freshConn "conn-1" with registered := true } []
      ⟨none, some InboundData.ready⟩ ⟨true, none⟩ (Except.ok ⟨none, 0⟩)
      "t1").conn.registered = true :=
  ready_implies_registered_invariant ⟨[]⟩
    { freshConn "conn-1" with registered := true } []
    ⟨none, some InboundData.ready⟩ ⟨true, none⟩ (Except.ok ⟨none, 0⟩) "t1"
    (by decide) (by decide)

/-- C6: `handleMessage` first offers the frame to the RPC correlator and
stops when it is consumed (no control-frame effect); a frame that is not
consumed and is not valid JSON is dropped with no state change; and no branch
at all closes the connection. -/
theorem handleMessage_rpc_first_and_drops_malformed (st : ServerState)
    (conn : Connection) (store : EvalStore) (f : Frame) (v : ClientValidation)
    (rr : Except String RegInfo) (now : String) :
    (∀ c2, rpcHandleResponse conn f = some c2 →
      handleMessage st conn store f v rr now =
        { server := st, conn := c2, store := store, outbox := [], closed := false })
    ∧ (rpcHandleResponse conn f = none → f.parsed = none →
      handleMessage st conn store f v rr now =
        { server := st, conn := conn, store := store, outbox := [], closed := false })
    ∧ (handleMessage st conn store f v rr now).closed = false := by
  refine ⟨?_, ?_, ?_⟩
  · intro c2 hr
    simp [handleMessage, hr]
  · intro hr hp
    simp [handleMessage, hr, hp]
  · unfold handleMessage
    cases rpcHandleResponse conn f with
    | some c2 => rfl
    | none =>
      cases f.parsed with
      | none => rfl
      | some d =>
        cases d with
        | register rd => rfl
        | ping => rfl
        | ready =>
          by_cases hreg : conn.registered <;> simp [hreg]
        | status sd => rfl
        | unknown t => rfl

/-- C6 witness: a frame matching the outstanding id `rpc-1` is consumed by
the correlator with no other effect, and a malformed frame is dropped with
the connection left open and unchanged. -/
theorem handleMessage_rpc_first_and_drops_malformed_witness :
    (handleMessage ⟨[]⟩ { freshConn "conn-1" with pendingRpcIds := ["rpc-1"] } []
        ⟨some "rpc-1", none⟩ ⟨true, none⟩ (Except.ok ⟨none, 0⟩) "t1" =
      { server := ⟨[]⟩, conn := { freshConn "conn-1" with pendingRpcIds := [] },
        store := [], outbox := [], closed := false })
    ∧ (handleMessage ⟨[]⟩ (freshConn "conn-2") [] ⟨none, none⟩
        ⟨true, none⟩ (Except.ok ⟨none, 0⟩) "t1" =
      { server := ⟨[]⟩, conn := freshConn "conn-2", store := [], outbox := [],
        closed := false }) :=
  ⟨(handleMessage_rpc_first_and_drops_malformed ⟨[]⟩
      { freshConn "conn-1" with pendingRpcIds := ["rpc-1"] } []
      ⟨some "rpc-1", none⟩ ⟨true, none⟩ (Except.ok ⟨none, 0⟩) "t1").1
      { freshConn "conn-1" with pendingRpcIds := [] } (by decide),
   (handleMessage_rpc_first_and_drops_malformed ⟨[]⟩ (freshConn "conn-2") []
      ⟨none, none⟩ ⟨true, none⟩ (Except.ok ⟨none, 0⟩) "t1").2.1 rfl rfl⟩

/-- C7: a `register` frame whose credentials validate is answered with a
`registration_ack` of status `accepted` carrying the evaluations count; one
that fails validation is answered `rejected` with the reason, and the
rejected path changes nothing — the socket stays open and the directory entry
survives, so the client can retry on the same connection. -/
theorem registration_ack_and_socket_open (st : ServerState) (conn : Connection)
    (store : EvalStore) (rd : RegisterData) (v : ClientValidation)
    (rr : Except String RegInfo) (info : RegInfo) (now : String) :
    (v.valid = true →
      (handleMessage st conn store ⟨none, some (InboundData.register rd)⟩ v
        (Except.ok info) now).outbox =
        [OutFrame.registrationAck rd.clientId "accepted" none
          (some (welcomeText info)) (some info.evaluationsCount)])
    ∧ (v.valid = false →
      handleMessage st conn store ⟨none, some (InboundData.register rd)⟩ v rr now =
        { server := st, conn := conn, store := store,
          outbox := [OutFrame.registrationAck rd.clientId "rejected" v.reason none none],
          closed := false }) := by
  constructor
  · intro hv
    simp [handleMessage, rpcHandleResponse, handleRegistration, hv]
  · intro hv
    simp [handleMessage, rpcHandleResponse, handleRegistration, hv]

/-- C7 witness: a concrete accepted registration produces the accepted ack,
and a concrete rejected one leaves everything unchanged with the rejection
ack as the only reply. -/
theorem registration_ack_and_socket_open_witness :
    ((handleMessage ⟨[("conn-1", freshConn "conn-1")]⟩ (freshConn "conn-1") []
        ⟨none, some (InboundData.register ⟨"client-1", some "secret", none⟩)⟩
        ⟨true, none⟩ (Except.ok ⟨some "Alice", 3⟩) "t1").outbox =
      [OutFrame.registrationAck "client-1" "accepted" none
        (some "Welcome Alice") (some 3)])
    ∧ (handleMessage ⟨[("conn-1", freshConn "conn-1")]⟩ (freshConn "conn-1") []
        ⟨none, some (InboundData.register ⟨"client-1", some "wrong", none⟩)⟩
        ⟨false, some "Invalid secret key"⟩ (Except.ok ⟨some "Alice", 3⟩) "t1" =
      { server := ⟨[("conn-1", freshConn "conn-1")]⟩, conn := freshConn "conn-1",
        store := [],
        outbox := [OutFrame.registrationAck "client-1" "rejected"
          (some "Invalid secret key") none none],
        closed := false }) :=
  ⟨(registration_ack_and_socket_open ⟨[("conn-1", freshConn "conn-1")]⟩
      (freshConn "conn-1") [] ⟨"client-1", some "secret", none⟩ ⟨true, none⟩
      (Except.ok ⟨some "Alice", 3⟩) ⟨some "Alice", 3⟩ "t1").1 rfl,
   (registration_ack_and_socket_open ⟨[("conn-1", freshConn "conn-1")]⟩
      (freshConn "conn-1") [] ⟨"client-1", some "wrong", none⟩
      ⟨false, some "Invalid secret key"⟩ (Except.ok ⟨some "Alice", 3⟩)
      ⟨some "Alice", 3⟩ "t1").2 rfl⟩

/-- C8: disconnect handling fails every outstanding RPC call of the
connection (the correlator cleanup returns all of them) and removes the
connection's directory entry — keyed by its client id if registered, else by
its transient connection id — so the subsequent lookup finds nothing. -/
theorem handleDisconnection_fails_pending_and_removes_entry (st : ServerState)
    (conn : Connection) :
    (handleDisconnection st conn).2 = conn.pendingRpcIds ∧
    mapGet (handleDisconnection st conn).1.connectedAgents (dirKey conn) = none := by
  constructor
  · rfl
  · exact mapGet_mapDelete_self st.connectedAgents (dirKey conn)

/-- C1 (amended): a successful registration stores the connection's directory
entry under the plain `clientId` key — the tabId plays no role in the key —
and deletes the transient connectionId entry. -/
theorem handleRegistration_stores_under_plain_clientId (st : ServerState)
    (conn : Connection) (rd : RegisterData) (v : ClientValidation) (info : RegInfo)
    (hv : v.valid = true) (hne : rd.clientId ≠ conn.id) :
    mapGet (handleRegistration st conn rd v (Except.ok info)).1.connectedAgents
        rd.clientId =
      some { conn with registered := true, clientId := some rd.clientId, capabilities := rd.capabilities }
    ∧ mapGet (handleRegistration st conn rd v (Except.ok info)).1.connectedAgents
        conn.id = none := by
  constructor
  · simp [handleRegistration, hv, mapGet_mapSet_self]
  · simp [handleRegistration, hv]
    rw [mapGet_mapSet_ne _ _ _ _ hne]
    exact mapGet_mapDelete_self st.connectedAgents conn.id

/-- C1 amended witness: registering `client-1` on transient connection
`conn-9` files the entry under `client-1` and clears `conn-9`. -/
theorem handleRegistration_stores_under_plain_clientId_witness :
    mapGet (handleRegistration ⟨[("conn-9", freshConn "conn-9")]⟩ (freshConn "conn-9")
        ⟨"client-1", some "secret", none⟩ ⟨true, none⟩
        (Except.ok ⟨none, 0⟩)).1.connectedAgents "client-1" =
      some { freshConn "conn-9" with registered := true, clientId := some "client-1", capabilities := none }
    ∧ mapGet (handleRegistration ⟨[("conn-9", freshConn "conn-9")]⟩ (freshConn "conn-9")
        ⟨"client-1", some "secret", none⟩ ⟨true, none⟩
        (Except.ok ⟨none, 0⟩)).1.connectedAgents "conn-9" = none :=
  handleRegistration_stores_under_plain_clientId ⟨[("conn-9", freshConn "conn-9")]⟩
    (freshConn "conn-9") ⟨"client-1", some "secret", none⟩ ⟨true, none⟩
    ⟨none, 0⟩ rfl (by decide)

/-- Capabilities declaring a browser tab, for the two-tab scenario. -/
def tabCaps (t : String) : Capabilities :=
  { tools := [], maxConcurrency := 1, version := "1.0.0", tabId := some t }

/-- The two-tab scenario of the claim: two connections of base client `base`,
tabs `t1` and `t2`, both connect and both register with valid credentials. -/
def twoTabFinal : ServerState :=
  let s0 : ServerState := ⟨[]⟩
  let r1 := handleConnection s0 "conn-1" "127.0.0.1" "t0"
  let r2 := handleConnection r1.1 "conn-2" "127.0.0.1" "t0"
  let reg1 := handleRegistration r2.1 r1.2.1
    ⟨"base", some "secret", some (tabCaps "t1")⟩ ⟨true, none⟩ (Except.ok ⟨none, 2⟩)
  let reg2 := handleRegistration reg1.1 r2.2.1
    ⟨"base", some "secret", some (tabCaps "t2")⟩ ⟨true, none⟩ (Except.ok ⟨none, 2⟩)
  reg2.1

/-- C1 counterexample: after both tabs of `base` register successfully, the
directory holds no `base:t1` or `base:t2` entries — it holds exactly one
entry, keyed `base`, and it is the second tab's connection, so the second
registration overwrote the first. -/
theorem twoTabs_registration_overwrites :
    mapGet twoTabFinal.connectedAgents "base:t1" = none
    ∧ mapGet twoTabFinal.connectedAgents "base:t2" = none
    ∧ twoTabFinal.connectedAgents.map Prod.fst = ["base"]
    ∧ (mapGet twoTabFinal.connectedAgents "base").map Connection.capabilities =
        some (some (tabCaps "t2")) := by
  refine ⟨rfl, rfl, rfl, rfl⟩

/-- C2 (amended): a `status` frame from a registered connection forwards the
client-sent status string straight into the stored evaluation record —
whatever it is, terminal values included — while progress and message are
only logged; a `status` frame from an unregistered connection changes
nothing. -/
theorem handleStatusUpdate_forwards_client_status (store : EvalStore)
    (conn : Connection) (sd : StatusData) :
    (conn.registered = true →
      (lookupEval (handleStatusUpdate store conn sd)
          ⟨conn.clientId, sd.evaluationId⟩).map EvalRecord.status = some sd.status)
    ∧ (conn.registered = false → handleStatusUpdate store conn sd = store) := by
  constructor
  · intro h
    simp only [handleStatusUpdate, h]
    simp [lookupEval_updateEvaluationStatus_self]
  · intro h
    simp [handleStatusUpdate, h]

/-- C2 amended witness: a registered client's `status` frame stores the
client-sent status for its evaluation, and an unregistered connection's
frame is ignored. -/
theorem handleStatusUpdate_forwards_client_status_witness :
    ((lookupEval (handleStatusUpdate [] { freshConn "conn-1" with registered := true, clientId := some "client-1" }
        ⟨"eval-1", "running", some ((1 : ℚ)/2), some "halfway"⟩)
        ⟨some "client-1", "eval-1"⟩).map EvalRecord.status = some "running")
    ∧ (handleStatusUpdate [] (freshConn "conn-2")
        ⟨"eval-1", "running", some ((1 : ℚ)/2), some "halfway"⟩ = []) :=
  ⟨(handleStatusUpdate_forwards_client_status []
      { freshConn "conn-1" with registered := true, clientId := some "client-1" }
      ⟨"eval-1", "running", some ((1 : ℚ)/2), some "halfway"⟩).1 rfl,
   (handleStatusUpdate_forwards_client_status [] (freshConn "conn-2")
      ⟨"eval-1", "running", some ((1 : ℚ)/2), some "halfway"⟩).2 rfl⟩

/-- C2 counterexample: an evaluation whose stored status is `running`
receives a client-sent `status` frame with status `completed`; the stored
status becomes the terminal value `completed`, which the claim rules out. -/
theorem status_frame_sets_terminal_status :
    lookupEval (handleStatusUpdate [(⟨some "client-1", "eval-1"⟩, ⟨"running", none⟩)]
        { freshConn "conn-1" with registered := true, clientId := some "client-1" }
        ⟨"eval-1", "completed", some 1, some "done"⟩)
      ⟨some "client-1", "eval-1"⟩ = some ⟨"completed", none⟩ := by
  rfl

/-- A registered but not-ready connection, for the dispatcher scenarios. -/
def notReadyClient : Connection :=
  { freshConn "conn-3" with registered := true, clientId := some "client-3" }

/-- A minimal evaluation definition with no validation block. -/
def eval1 : Evaluation :=
  { id := "eval-1"
    name := "E1"
    description := none
    tool := "tool-1"
    input := "in"
    url := none
    targetUrl := none
    timeout := none
    validation := none
    metadataTags := none
    maxRetries := none }

/-- C3 (amended): `executeEvaluation` performs no readiness check of its own —
for every connection, ready or not, it issues exactly one RPC call — and the
`connection.ready` guard lives in the caller `processClientEvaluations`,
which returns without any effect when the client is not ready. -/
theorem executeEvaluation_issues_call_without_ready_check (store : EvalStore)
    (client : Connection) (evaluation : Evaluation) (rpc : RpcOutcome)
    (judge : JudgeResult) (elapsed : Nat) :
    (executeEvaluation store client evaluation rpc judge elapsed).issued.length = 1
    ∧ (client.ready = false →
        processClientEvaluationsStep store (some client) (some evaluation) rpc
          judge elapsed = (store, [])) := by
  constructor
  · cases rpc <;> rfl
  · intro h
    simp [processClientEvaluationsStep, h]

/-- C3 amended witness: a registered, not-ready client — `executeEvaluation`
still issues its one RPC call, while `processClientEvaluations` declines. -/
theorem executeEvaluation_issues_call_without_ready_check_witness :
    (executeEvaluation [] notReadyClient eval1 (RpcOutcome.ok ⟨"out", 100⟩) ⟨1⟩ 5).issued.length = 1
    ∧ processClientEvaluationsStep [] (some notReadyClient) (some eval1)
        (RpcOutcome.ok ⟨"out", 100⟩) ⟨1⟩ 5 = ([], []) :=
  ⟨(executeEvaluation_issues_call_without_ready_check [] notReadyClient eval1
      (RpcOutcome.ok ⟨"out", 100⟩) ⟨1⟩ 5).1,
   (executeEvaluation_issues_call_without_ready_check [] notReadyClient eval1
      (RpcOutcome.ok ⟨"out", 100⟩) ⟨1⟩ 5).2 rfl⟩

/-- C3 counterexample: called with a connection whose `ready` flag is false,
`executeEvaluation` does not fail fast — it issues the `evaluate` RPC call,
runs to completion, and leaves the evaluation stored as `completed`. -/
theorem executeEvaluation_not_ready_proceeds :
    (executeEvaluation [] notReadyClient eval1 (RpcOutcome.ok ⟨"out", 100⟩) ⟨1⟩ 5).issued =
      [{ method := "evaluate"
         params := { evaluationId := "eval-1", name := "E1", url := none, tool := "tool-1", input := "in", timeout := 30000, metadataTags := [], metadataRetries := 0 }
         timeoutMs := 45000 }]
    ∧ (executeEvaluation [] notReadyClient eval1 (RpcOutcome.ok ⟨"out", 100⟩) ⟨1⟩ 5).outcome =
        Except.ok ()
    ∧ (lookupEval (executeEvaluation [] notReadyClient eval1
          (RpcOutcome.ok ⟨"out", 100⟩) ⟨1⟩ 5).store
        ⟨some "client-3", "eval-1"⟩).map EvalRecord.status = some "completed" := by
  refine ⟨rfl, rfl, rfl⟩

/-- C4 (amended): for every evaluation with `llm-judge` (or `hybrid`)
validation, the stored `passed` flag is exactly `score ≥ 0.7` with the
hardcoded constant 0.7 — the definition's configured `threshold` is never
consulted. The boundary is exact: a score of exactly 0.7 passes. -/
theorem validateResponse_fixed_threshold (e : Evaluation) (v : ValidationConfig)
    (j : JudgeResult) (hv : e.validation = some v)
    (ht : v.ty = "llm-judge" ∨ v.ty = "hybrid") :
    (validateResponse e j).map ValidationResult.passed =
      some (decide ((7 : ℚ)/10 ≤ j.score)) := by
  simp only [validateResponse, hv]
  rw [if_pos ht]
  rfl

/-- An evaluation definition whose validation block configures a 0.9
threshold. -/
def evalT9 : Evaluation :=
  { eval1 with validation := some { ty := "llm-judge", llmJudge := some ⟨["accuracy"], none⟩, threshold := some ((9 : ℚ)/10) } }

/-- C4 amended witness: at the boundary score 0.7, the stored result passes,
although the definition configured threshold 0.9. -/
theorem validateResponse_fixed_threshold_witness :
    (validateResponse evalT9 ⟨(7 : ℚ)/10⟩).map ValidationResult.passed = some true := by
  have h := validateResponse_fixed_threshold evalT9
    { ty := "llm-judge", llmJudge := some ⟨["accuracy"], none⟩, threshold := some ((9 : ℚ)/10) }
    ⟨(7 : ℚ)/10⟩ rfl (Or.inl rfl)
  rw [h]
  simp only [Option.some.injEq]
  exact decide_eq_true (by norm_num)

/-- C4 counterexample: with configured threshold 0.9 and judge score 0.8 the
stored result has `passed = true`, though 0.8 < 0.9 — so `passed` is not
`score ≥ configured threshold` as the claim states. -/
theorem threshold_override_ignored :
    (validateResponse evalT9 ⟨(4 : ℚ)/5⟩).map ValidationResult.passed = some true
    ∧ ¬ ((9 : ℚ)/10 ≤ (4 : ℚ)/5) := by
  constructor
  · have h : validateResponse evalT9 ⟨(4 : ℚ)/5⟩ =
        some { ty := "llm-judge", result := ⟨(4 : ℚ)/5⟩, passed := decide ((7 : ℚ)/10 ≤ (4 : ℚ)/5) } := rfl
    rw [h]
    simp only [Option.map_some', Option.some.injEq]
    exact decide_eq_true (by norm_num)
  · norm_num

/-- C9: on an inbound `evaluate` request (with the socket present), the agent
sends exactly one JSON-RPC response, always carrying the request's `id`: the
success frame with the tool output when the tool is found and finishes in
time, and the `Tool execution failed` error frame otherwise — in the timeout
case with the timeout-mentioning message produced by the race. -/
theorem handleEvaluationRequest_single_response (a : AgentState)
    (req : EvaluationRequest) (toolFound : Bool) (run : ToolRun) (t : Nat)
    (hc : a.client = true) :
    ((handleEvaluationRequest a req toolFound run t).2.filter isRpcResponse).length = 1
    ∧ (∀ fr ∈ (handleEvaluationRequest a req toolFound run t).2.filter isRpcResponse,
        responseId fr = some req.id)
    ∧ (∀ o, toolFound = true → run = ToolRun.completes (Except.ok o) →
        (handleEvaluationRequest a req toolFound run t).2.filter isRpcResponse =
          [AgentFrame.rpcSuccess req.id o t])
    ∧ (toolFound = true → run = ToolRun.timesOut →
        (handleEvaluationRequest a req toolFound run t).2.filter isRpcResponse =
          [AgentFrame.rpcError req.id "Tool execution failed"
            ("Tool execution timeout after " ++
              toString (jsOrNat req.params.timeout 30000) ++ "ms")]) := by
  have hresp : ∀ (fr : AgentFrame),
      ((handleEvaluationRequest a req toolFound run t).2.filter isRpcResponse) =
        [fr] → responseId fr = some req.id →
      ((handleEvaluationRequest a req toolFound run t).2.filter isRpcResponse).length = 1
      ∧ (∀ g ∈ (handleEvaluationRequest a req toolFound run t).2.filter isRpcResponse,
          responseId g = some req.id) := by
    intro fr hfr hid
    rw [hfr]
    exact ⟨rfl, by simpa using hid⟩
  have key : ∃ fr, ((handleEvaluationRequest a req toolFound run t).2.filter isRpcResponse) = [fr]
      ∧ responseId fr = some req.id
      ∧ (∀ o, toolFound = true → run = ToolRun.completes (Except.ok o) →
          fr = AgentFrame.rpcSuccess req.id o t)
      ∧ (toolFound = true → run = ToolRun.timesOut →
          fr = AgentFrame.rpcError req.id "Tool execution failed"
            ("Tool execution timeout after " ++
              toString (jsOrNat req.params.timeout 30000) ++ "ms")) := by
    cases htf : toolFound with
    | false =>
      refine ⟨AgentFrame.rpcError req.id "Tool execution failed"
        ("Tool not found: " ++ req.params.tool), ?_, rfl, ?_, ?_⟩
      · simp [handleEvaluationRequest, hc, List.filter_append,
          filter_isRpcResponse_sendStatusFrames, isRpcResponse]
      · intro o h; exact absurd h (by simp)
      · intro h; exact absurd h (by simp)
    | true =>
      cases run with
      | timesOut =>
        refine ⟨AgentFrame.rpcError req.id "Tool execution failed"
          ("Tool execution timeout after " ++
            toString (jsOrNat req.params.timeout 30000) ++ "ms"), ?_, rfl, ?_, ?_⟩
        · cases hu : req.params.url <;>
            simp [handleEvaluationRequest, hc, hu, executeToolWithTimeout,
              List.filter_append, filter_isRpcResponse_sendStatusFrames, isRpcResponse]
        · intro o _ h; exact absurd h (by simp)
        · intro _ _; rfl
      | completes r =>
        cases r with
        | ok o =>
          refine ⟨AgentFrame.rpcSuccess req.id o t, ?_, rfl, ?_, ?_⟩
          · cases hu : req.params.url <;>
              simp [handleEvaluationRequest, hc, hu, executeToolWithTimeout,
                List.filter_append, filter_isRpcResponse_sendStatusFrames, isRpcResponse]
          · intro o2 _ h
            injection h with h2
            injection h2 with h3
            rw [h3]
          · intro _ h; exact absurd h (by simp)
        | error m =>
          refine ⟨AgentFrame.rpcError req.id "Tool execution failed" m, ?_, rfl, ?_, ?_⟩
          · cases hu : req.params.url <;>
              simp [handleEvaluationRequest, hc, hu, executeToolWithTimeout,
                List.filter_append, filter_isRpcResponse_sendStatusFrames, isRpcResponse]
          · intro o _ h; exact absurd h (by simp)
          · intro _ h; exact absurd h (by simp)
  obtain ⟨fr, hfr, hid, hok, htime⟩ := key
  have hbase := hresp fr hfr hid
  refine ⟨hbase.1, hbase.2, ?_, ?_⟩
  · intro o h1 h2
    rw [hfr, hok o h1 h2]
  · intro h1 h2
    rw [hfr, htime h1 h2]

/-- C9 witness: a concrete request whose tool times out yields exactly the
one error response, carrying the request id and the timeout message. -/
theorem handleEvaluationRequest_single_response_witness :
    (((handleEvaluationRequest ⟨true, true, true, true, []⟩
        ⟨"rpc-7", ⟨"eval-1", "E1", none, "tool-1", "in", some 5000⟩⟩
        true ToolRun.timesOut 7).2.filter isRpcResponse).length = 1)
    ∧ ((handleEvaluationRequest ⟨true, true, true, true, []⟩
        ⟨"rpc-7", ⟨"eval-1", "E1", none, "tool-1", "in", some 5000⟩⟩
        true ToolRun.timesOut 7).2.filter isRpcResponse =
      [AgentFrame.rpcError "rpc-7" "Tool execution failed"
        ("Tool execution timeout after " ++ toString (jsOrNat (some 5000) 30000) ++ "ms")]) :=
  ⟨(handleEvaluationRequest_single_response ⟨true, true, true, true, []⟩
      ⟨"rpc-7", ⟨"eval-1", "E1", none, "tool-1", "in", some 5000⟩⟩
      true ToolRun.timesOut 7 rfl).1,
   (handleEvaluationRequest_single_response ⟨true, true, true, true, []⟩
      ⟨"rpc-7", ⟨"eval-1", "E1", none, "tool-1", "in", some 5000⟩⟩
      true ToolRun.timesOut 7 rfl).2.2.2 rfl rfl⟩

/-- C10: a `registration_ack` with status `rejected` makes the agent
disconnect and clear all local session state — socket dropped, `registered`
and `ready` false, heartbeat stopped, active-evaluation map emptied — and it
sends nothing, in particular no new `register` frame. -/
theorem registration_rejected_disconnects (a : AgentState)
    (m : RegistrationAckMessage) (h : m.status = "rejected") :
    handleRegistrationAck a m =
      ({ client := false, registered := false, ready := false, heartbeat := false,
         activeEvaluations := [] }, []) := by
  unfold handleRegistrationAck
  rw [h]
  simp [disconnect]

/-- C10 witness: a fully active agent receiving a concrete rejection ack
ends with all state cleared and no outgoing frames. -/
theorem registration_rejected_disconnects_witness :
    handleRegistrationAck ⟨true, true, true, true, ["eval-1"]⟩
      ⟨some "client-1", "rejected", some "Invalid secret key", none, none⟩ =
      ({ client := false, registered := false, ready := false, heartbeat := false,
         activeEvaluations := [] }, []) :=
  registration_rejected_disconnects ⟨true, true, true, true, ["eval-1"]⟩
    ⟨some "client-1", "rejected", some "Invalid secret key", none, none⟩ rfl

end EvalModel
